import Mathlib

/-
Verification of the DQN policy core in stable_baselines3/dqn/policies.py.

The source's tensors of rational-valued Q-values are embedded as lists of ℚ;
machine floats are treated as exact rationals. The two stochastic inputs of
`Q_Net.predict` (the single `np.random.rand()` draw and the stream of
`action_space.sample()` draws) are passed in explicitly, so every operation is
a pure function of its state and its random inputs.
-/

set_option linter.unusedVariables false

/-- Gym action and observation spaces as the policy core uses them. The source
duck-types on the `n` attribute, which `gym.spaces.Discrete` exposes and a
continuous `Box` does not; `box` carries its flattened width. -/
inductive GymSpace where
  | discrete (n : Nat)
  | box (dim : Nat)
  deriving DecidableEq

/-- Attribute access `space.n` (src line 124, `self.action_space.n`): present
on a Discrete space, absent on a Box. -/
def spaceN : GymSpace → Option Nat
  | .discrete n => some n
  | .box _ => none

/-- Modelled from the spec: `get_obs_dim` (stable_baselines3.common.preprocessing,
not under src/) derives the flattened feature width of the observation space
for the flattening feature extractor. -/
def get_obs_dim : GymSpace → Int
  | .discrete _ => 1
  | .box d => (d : Int)

/-- Errors surfaced at construction time, named after the spec's error
taxonomy: `unsupportedSpace` is the failure of the `.n` attribute access on a
non-discrete action space, `configuration` an invalid network architecture. -/
inductive SBError where
  | unsupportedSpace
  | configuration
  deriving DecidableEq

/-- Runtime tensor errors on the prediction paths: a dimension argument out of
range for the tensor's rank, or an impossible `.reshape`. -/
inductive RTError where
  | dimOutOfRange
  | reshapeError
  deriving DecidableEq

/-- Observation tensors as the source distinguishes them
(`observation.ndim > 1`, src line 74): a 1-D unbatched vector or a 2-D batch
of row vectors. -/
inductive ObsTensor where
  | unbatched (row : List ℚ)
  | batched (rows : List (List ℚ))
  deriving DecidableEq

/-- One affine layer of the Q-network stack: weight rows paired with the bias
vector. -/
abbrev MLPLayer := List (List ℚ) × List ℚ

/-- Affine stack of a Q-network: hidden layers followed by the output layer;
the configured activation is applied after every layer except the last. -/
abbrev MLP := List MLPLayer

/-- Dot product of a weight row with the input vector. -/
def dotQ (w x : List ℚ) : ℚ := (List.zipWith (· * ·) w x).foldl (· + ·) 0

/-- Application of one affine layer: one output per weight row. -/
def affineApply (layer : MLPLayer) (x : List ℚ) : List ℚ :=
  List.zipWith (fun row b => dotQ row x + b) layer.1 layer.2

/-- Application of the whole affine stack: activation after every layer but
the final one, so the last layer emits raw unbounded Q-values. -/
def mlpForward (act : ℚ → ℚ) : MLP → List ℚ → List ℚ
  | [], x => x
  | [l], x => affineApply l x
  | l :: l2 :: ls, x => mlpForward act (l2 :: ls) ((affineApply l x).map act)

/-- Flattened list of all learnable parameter scalars of a stack, in
state-dict order (per layer: weight entries, then bias entries). -/
def MLP.flatParams (m : MLP) : List ℚ :=
  m.foldr (fun l acc => l.1.foldr (· ++ ·) [] ++ l.2 ++ acc) []

/-- Rational stand-in for the default `nn.ReLU` activation. -/
def reluQ (q : ℚ) : ℚ := max q 0

/-- Largest entry of a list of Q-values (torch `max` along the action
dimension; 0 for the empty list, which this path never produces). -/
def listMax : List ℚ → ℚ
  | [] => 0
  | x :: xs => xs.foldl max x

/-- Index returned by `th.argmax` along the action dimension: the first
(lowest) index attaining the maximal value. -/
def argmaxIdx : List ℚ → Nat
  | [] => 0
  | [_] => 0
  | x :: y :: xs => if x < listMax (y :: xs) then argmaxIdx (y :: xs) + 1 else 0

/-- Modelled from the spec: `create_mlp` (stable_baselines3.common.policies,
not under src/) builds the affine stack `features_dim → net_arch → action_dim`
with the activation after every hidden layer and none after the output layer,
and fails with `ConfigurationError` if `net_arch` is empty (and not replaced
by a policy default) or if `action_dim ≤ 0`. The freshly initialized weight
values are supplied by the caller's `initW` argument, which stands for torch's
random layer initialization. -/
def create_mlp (features_dim action_dim : Int) (net_arch : List Nat)
    (initW : MLP) : Except SBError MLP :=
  if net_arch = [] then .error .configuration
  else if action_dim ≤ 0 then .error .configuration
  else .ok initW

/-- State of one `Q_Net` (src lines 29-54): the configuration fields stored by
the constructor, the built affine stack `q_net`, and the mutable `epsilon`. -/
structure Q_Net where
  observation_space : GymSpace
  action_space : GymSpace
  features_dim : Int
  action_dim : Int
  net_arch : List Nat
  epsilon : ℚ
  normalize_images : Bool
  activation_fn : ℚ → ℚ
  q_net : MLP

/-- Embeds `Q_Net.__init__` (src lines 29-54): defaults `net_arch` to
`[64, 64]` when absent, stores the configuration and epsilon, and builds the
stack via `create_mlp`. -/
def Q_Net.init (observation_space action_space : GymSpace)
    (features_dim action_dim : Int) (net_arch : Option (List Nat))
    (activation_fn : ℚ → ℚ) (epsilon : ℚ) (normalize_images : Bool)
    (initW : MLP) : Except SBError Q_Net :=
  let na := net_arch.getD [64, 64]
  match create_mlp features_dim action_dim na initW with
  | .error e => .error e
  | .ok q =>
      .ok { observation_space, action_space, features_dim, action_dim,
            net_arch := na, epsilon, normalize_images, activation_fn,
            q_net := q }

/-- Modelled from the spec: `BasePolicy.extract_features` (not under src/)
preprocesses the observation and applies the policy's feature extractor, which
this core fixes to `nn.Flatten()` (src line 122). Torch `flatten` with
`start_dim=1` leaves a 2-D batch as its rows and raises a
dimension-out-of-range error on a 1-D tensor. -/
def extract_features : ObsTensor → Except RTError (List (List ℚ))
  | .batched rows => .ok rows
  | .unbatched _ => .error .dimOutOfRange

/-- Embeds `Q_Net.forward` (src lines 56-62): feature extraction followed by
the affine stack, one row of Q-values per batch row. -/
def Q_Net.forward (net : Q_Net) (obs : ObsTensor) :
    Except RTError (List (List ℚ)) :=
  match extract_features obs with
  | .error e => .error e
  | .ok feats => .ok (feats.map (mlpForward net.activation_fn net.q_net))

/-- Torch `.reshape(1)`: succeeds exactly when the tensor holds one element. -/
def reshape1 (l : List Nat) : Except RTError (List Nat) :=
  if l.length = 1 then .ok l else .error .reshapeError

/-- Embeds `Q_Net.predict` (src lines 64-84). `rand` is the call's one
`np.random.rand()` draw (in [0,1)) and `samples i` the i-th
`action_space.sample()` draw. Epsilon-greedy: when `deterministic` is false
and `rand < epsilon`, the batched branch builds one sampled action per batch
row and then applies `.reshape(1)` to the resulting tensor, while the
unbatched branch reshapes a single sampled scalar into a one-element tensor;
otherwise the batch's Q-values are computed and
`th.argmax(q_val, 1).reshape(-1)` is returned. -/
def Q_Net.predict (net : Q_Net) (observation : ObsTensor)
    (deterministic : Bool) (rand : ℚ) (samples : Nat → Nat) :
    Except RTError (List Nat) :=
  if deterministic = false ∧ rand < net.epsilon then
    match observation with
    | .batched rows => reshape1 ((List.range rows.length).map samples)
    | .unbatched _ => .ok [samples 0]
  else
    match extract_features observation with
    | .error e => .error e
    | .ok feats =>
        .ok (feats.map (fun row => argmaxIdx (mlpForward net.activation_fn net.q_net row)))

/-- Embeds the `net_args` dict (src lines 128-139) captured at policy
construction and reused by every `make_q_net` call. -/
structure NetArgs where
  observation_space : GymSpace
  action_space : GymSpace
  features_dim : Int
  action_dim : Int
  net_arch : List Nat
  epsilon : ℚ
  activation_fn : ℚ → ℚ
  normalize_images : Bool

/-- Embeds `DQNPolicy.make_q_net` (src lines 167-168): a fresh `Q_Net` from
the stored `net_args`; `initW` stands for the fresh random initialization of
its weights. -/
def make_q_net (args : NetArgs) (initW : MLP) : Except SBError Q_Net :=
  Q_Net.init args.observation_space args.action_space args.features_dim
    args.action_dim (some args.net_arch) args.activation_fn args.epsilon
    args.normalize_images initW

/-- Embeds `load_state_dict` (src line 157): overwrite the destination's
learnable parameters with the source network's; `epsilon` is a plain attribute
rather than a registered tensor, so it is not part of the state dict. -/
def load_state_dict (dst src : Q_Net) : Q_Net :=
  { dst with q_net := src.q_net }

/-- Provenance tag for a learnable parameter tensor: which registered
submodule of the policy owns it. Distinct submodules own distinct tensor
objects even when the stored values coincide. -/
inductive ParamOwner where
  | qNet
  | qNetTarget
  deriving DecidableEq

/-- Embeds `nn.Module.parameters()` on the policy: the parameters of all
registered submodules in registration order — `features_extractor`
(`nn.Flatten`, owns none), `q_net`, `q_net_target`. -/
def policyParameters (online target : Q_Net) : List (ParamOwner × ℚ) :=
  online.q_net.flatParams.map (fun v => (ParamOwner.qNet, v))
    ++ target.q_net.flatParams.map (fun v => (ParamOwner.qNetTarget, v))

/-- Embeds `th.optim.Adam(params, lr)` as the policy constructs it: the
parameter collection it was handed and the initial learning rate. -/
structure Adam where
  params : List (ParamOwner × ℚ)
  lr : ℚ

/-- State of a `DQNPolicy` (src lines 104-160) after a completed
construction. -/
structure DQNPolicy where
  observation_space : GymSpace
  action_space : GymSpace
  net_arch : List Nat
  activation_fn : ℚ → ℚ
  features_dim : Int
  action_dim : Int
  normalize_images : Bool
  epsilon : ℚ
  net_args : NetArgs
  log_std_init : ℚ
  q_net : Q_Net
  q_net_target : Q_Net
  optimizer : Adam

/-- Embeds `DQNPolicy.__init__` together with `_build` (src lines 104-160):
resolves the `[256, 256]` default architecture, derives `features_dim` and
`action_dim := action_space.n` (the attribute access that fails on a
non-discrete space), freezes `net_args`, builds `q_net` and `q_net_target`
from it with independent initializations `initOnline` and `initTarget`,
hard-syncs the target via `load_state_dict`, and constructs Adam over
`self.parameters()` with learning rate `lr_schedule 1`. -/
def DQNPolicy.init (observation_space action_space : GymSpace)
    (lr_schedule : ℚ → ℚ) (net_arch : Option (List Nat))
    (activation_fn : ℚ → ℚ) (log_std_init : ℚ) (epsilon : ℚ)
    (normalize_images : Bool) (initOnline initTarget : MLP) :
    Except SBError DQNPolicy :=
  match spaceN action_space with
  | none => .error .unsupportedSpace
  | some n =>
      let na := net_arch.getD [256, 256]
      let fd := get_obs_dim observation_space
      let args : NetArgs :=
        { observation_space, action_space, features_dim := fd,
          action_dim := (n : Int), net_arch := na, epsilon, activation_fn,
          normalize_images }
      match make_q_net args initOnline with
      | .error e => .error e
      | .ok online =>
          match make_q_net args initTarget with
          | .error e => .error e
          | .ok t0 =>
              .ok { observation_space, action_space, net_arch := na,
                    activation_fn, features_dim := fd,
                    action_dim := (n : Int), normalize_images, epsilon,
                    net_args := args, log_std_init, q_net := online,
                    q_net_target := load_state_dict t0 online,
                    optimizer :=
                      { params := policyParameters online (load_state_dict t0 online),
                        lr := lr_schedule 1 } }

/-- Embeds `DQNPolicy.update_epsilon` (src lines 162-165): fan the new value
out to the target net, the online net and the policy's own field; in the
embedding this is a single state-to-state step, so no caller observes a
partial fan-out. -/
def DQNPolicy.update_epsilon (s : DQNPolicy) (x : ℚ) : DQNPolicy :=
  { s with q_net_target := { s.q_net_target with epsilon := x },
           q_net := { s.q_net with epsilon := x },
           epsilon := x }

/-- Modelled from the spec: `synchronize_target` is specified as a DQNPolicy
operation but its implementation is not under src/ (the external training loop
triggers it); following the spec's words and the construction-time sync at
src line 157, it overwrites all of the target network's parameters with the
online network's current parameters and returns nothing beyond the new
state. -/
def DQNPolicy.synchronize_target (s : DQNPolicy) : DQNPolicy :=
  { s with q_net_target := { s.q_net_target with q_net := s.q_net.q_net } }

/-- Embeds `DQNPolicy.q_predict` and `_predict` (src lines 173-177): both
delegate to the online network's `predict`. -/
def DQNPolicy.q_predict (s : DQNPolicy) (observation : ObsTensor)
    (deterministic : Bool) (rand : ℚ) (samples : Nat → Nat) :
    Except RTError (List Nat) :=
  Q_Net.predict s.q_net observation deterministic rand samples

/-- Three-way epsilon agreement between the online net, the target net and the
policy — the invariant of src lines 162-165. -/
def epsInvariant (s : DQNPolicy) : Prop :=
  s.q_net.epsilon = s.epsilon ∧ s.q_net_target.epsilon = s.epsilon

/-- Constant learning-rate schedule used in the concrete instances. -/
def exLr : ℚ → ℚ := fun _ => 1 / 100

/-- Concrete affine stack: one input feature, one hidden unit, four actions;
on input 1 it produces the Q-values 1/10, 9/10, 9/10, 1/5. -/
def exMLP1 : MLP := [([[1]], [0]), ([[1/10], [9/10], [9/10], [1/5]], [0, 0, 0, 0])]

/-- Second concrete affine stack, a deliberately different initialization. -/
def exMLP2 : MLP := [([[2]], [1]), ([[3], [4], [5], [6]], [1, 1, 1, 1])]

/-- Concrete Q-network over a 4-action discrete space with epsilon 1. -/
def exNet : Q_Net :=
  { observation_space := .box 1, action_space := .discrete 4, features_dim := 1,
    action_dim := 4, net_arch := [1], epsilon := 1, normalize_images := true,
    activation_fn := reluQ, q_net := exMLP1 }

/-- Concrete Q-network with epsilon 0. -/
def exNet0 : Q_Net := { exNet with epsilon := 0 }

/-- Concrete policy construction: 1-wide Box observations, 4 discrete actions,
constant schedule, architecture [1], epsilon 1/20. -/
def exCtor : Except SBError DQNPolicy :=
  DQNPolicy.init (GymSpace.box 1) (GymSpace.discrete 4) exLr (some [1]) reluQ 0
    (1/20) true exMLP1 exMLP2

/-- The state produced by `exCtor`; the error arm is unreachable. -/
def exPolicy : DQNPolicy :=
  match exCtor with
  | .ok s => s
  | .error _ =>
      { observation_space := .box 1, action_space := .discrete 4,
        net_arch := [1], activation_fn := reluQ, features_dim := 1,
        action_dim := 4, normalize_images := true, epsilon := 1/20,
        net_args := { observation_space := .box 1,
                      action_space := .discrete 4, features_dim := 1,
                      action_dim := 4, net_arch := [1], epsilon := 1/20,
                      activation_fn := reluQ, normalize_images := true },
        log_std_init := 0, q_net := exNet, q_net_target := exNet,
        optimizer := { params := [], lr := 1/100 } }

/-- Network produced by `make_q_net` from `exPolicy`'s stored `net_args`;
the error arm is unreachable. -/
def exChild : Q_Net :=
  match make_q_net exPolicy.net_args exMLP1 with
  | .ok q => q
  | .error _ => exNet

/-- Folding `max` from a joined seed distributes over the seed. -/
theorem foldl_max_absorb (xs : List ℚ) (a b : ℚ) :
    List.foldl max (max a b) xs = max a (List.foldl max b xs) := by
  induction xs generalizing b with
  | nil => rfl
  | cons c xs ih =>
      simp only [List.foldl]
      rw [max_assoc]
      exact ih (max b c)

/-- Unfolding of `listMax` on a two-or-more element list. -/
theorem listMax_cons (x y : ℚ) (xs : List ℚ) :
    listMax (x :: y :: xs) = max x (listMax (y :: xs)) := by
  simp only [listMax, List.foldl]
  exact foldl_max_absorb xs x y

/-- Characterization of `argmaxIdx` on a nonempty list: it is in range, it
attains the maximum, and every index before it is strictly below the
maximum — hence it is the lowest index attaining the maximum. -/
theorem argmaxIdx_spec (l : List ℚ) (hne : l ≠ []) :
    argmaxIdx l < l.length ∧ l.getD (argmaxIdx l) 0 = listMax l
      ∧ ∀ i, i < argmaxIdx l → l.getD i 0 < listMax l := by
  induction l with
  | nil => exact absurd rfl hne
  | cons x xs ih =>
      cases xs with
      | nil =>
          refine ⟨by simp [argmaxIdx], by simp [argmaxIdx, listMax], ?_⟩
          intro i hi
          simp [argmaxIdx] at hi
      | cons y ys =>
          have ihr := ih (by simp)
          by_cases hlt : x < listMax (y :: ys)
          · have ha : argmaxIdx (x :: y :: ys) = argmaxIdx (y :: ys) + 1 := by
              simp [argmaxIdx, hlt]
            have hmax : listMax (x :: y :: ys) = listMax (y :: ys) := by
              rw [listMax_cons]
              exact max_eq_right hlt.le
            refine ⟨?_, ?_, ?_⟩
            · rw [ha]
              simpa [List.length_cons] using Nat.succ_lt_succ ihr.1
            · rw [ha, hmax]
              simpa [List.getD_cons_succ] using ihr.2.1
            · intro i hi
              rw [ha] at hi
              cases i with
              | zero => simpa [List.getD_cons_zero, hmax] using hlt
              | succ j =>
                  have hj := ihr.2.2 j (Nat.lt_of_succ_lt_succ hi)
                  simpa [List.getD_cons_succ, hmax] using hj
          · have ha : argmaxIdx (x :: y :: ys) = 0 := by
              simp [argmaxIdx, hlt]
            have hmax : listMax (x :: y :: ys) = x := by
              rw [listMax_cons]
              exact max_eq_left (not_lt.mp hlt)
            refine ⟨by rw [ha]; simp, by rw [ha, hmax]; rfl, ?_⟩
            intro i hi
            rw [ha] at hi
            exact absurd hi (Nat.not_lt_zero i)

/-- A failing `make_q_net` can only fail with a configuration error. -/
theorem make_q_net_error (args : NetArgs) (iW : MLP) (e : SBError)
    (h : make_q_net args iW = Except.error e) : e = SBError.configuration := by
  simp only [make_q_net, Q_Net.init] at h
  split at h
  · rename_i e2 heq
    injection h with h2
    subst h2
    simp only [create_mlp] at heq
    split at heq
    · injection heq with h3
      exact h3.symm
    · split at heq
      · injection heq with h3
        exact h3.symm
      · exact Except.noConfusion heq
  · exact Except.noConfusion h

/-- A successful `make_q_net` stores the `net_args` epsilon on the new net. -/
theorem make_q_net_ok_epsilon (args : NetArgs) (iW : MLP) (q : Q_Net)
    (h : make_q_net args iW = Except.ok q) : q.epsilon = args.epsilon := by
  simp only [make_q_net, Q_Net.init] at h
  split at h
  · exact Except.noConfusion h
  · injection h with h2
    subst h2
    rfl

/-- Field inventory of a successfully constructed policy: target parameters
are a copy of online's, the optimizer holds the full parameter list of the
module with learning rate `lr_schedule 1`, and the construction epsilon is
stored on the policy, both networks and the frozen `net_args`. -/
theorem DQNPolicy.init_ok_fields (os as : GymSpace) (lr : ℚ → ℚ)
    (na : Option (List Nat)) (af : ℚ → ℚ) (ls eps : ℚ) (ni : Bool)
    (i1 i2 : MLP) (s : DQNPolicy)
    (h : DQNPolicy.init os as lr na af ls eps ni i1 i2 = Except.ok s) :
    s.q_net_target.q_net = s.q_net.q_net
    ∧ s.optimizer.params = policyParameters s.q_net s.q_net_target
    ∧ s.optimizer.lr = lr 1
    ∧ s.net_args.epsilon = eps
    ∧ s.epsilon = eps
    ∧ s.q_net.epsilon = eps
    ∧ s.q_net_target.epsilon = eps := by
  simp only [DQNPolicy.init] at h
  split at h
  · exact Except.noConfusion h
  · split at h
    · exact Except.noConfusion h
    · rename_i online hon
      split at h
      · exact Except.noConfusion h
      · rename_i t0 ht0
        injection h with h2
        subst h2
        have he1 := make_q_net_ok_epsilon _ _ _ hon
        have he2 := make_q_net_ok_epsilon _ _ _ ht0
        exact ⟨rfl, rfl, rfl, rfl, rfl, he1, he2⟩

/-- Claim C1: for every DQNPolicy construction that completes — whatever the
two independent weight initializations were — every parameter of the target
network equals the corresponding parameter of the online network exactly,
immediately after construction. -/
theorem C1_target_equals_online_after_construction (os as : GymSpace)
    (lr : ℚ → ℚ) (na : Option (List Nat)) (af : ℚ → ℚ) (ls eps : ℚ)
    (ni : Bool) (i1 i2 : MLP) (s : DQNPolicy)
    (h : DQNPolicy.init os as lr na af ls eps ni i1 i2 = Except.ok s) :
    s.q_net_target.q_net = s.q_net.q_net
    ∧ s.q_net_target.q_net.flatParams = s.q_net.q_net.flatParams := by
  have hf := DQNPolicy.init_ok_fields os as lr na af ls eps ni i1 i2 s h
  exact ⟨hf.1, by rw [hf.1]⟩

/-- Witness for C1 at a concrete construction with two distinct
initializations. -/
theorem C1_target_equals_online_witness :
    exPolicy.q_net_target.q_net = exPolicy.q_net.q_net :=
  (C1_target_equals_online_after_construction (GymSpace.box 1)
    (GymSpace.discrete 4) exLr (some [1]) reluQ 0 (1/20) true exMLP1 exMLP2
    exPolicy rfl).1

/-- Claim C2, counterexample: the optimizer built at construction is
`Adam(self.parameters(), ...)` (src line 160), and `self.parameters()` also
yields the target network's parameter tensors, so the optimizer's parameter
set is not restricted to the online network: a target-owned parameter is a
member of it in this concrete construction. -/
theorem C2_target_params_in_optimizer_counterexample :
    (ParamOwner.qNetTarget, (1 : ℚ)) ∈ exPolicy.optimizer.params := by decide

/-- Claim C2, amended: the optimizer is constructed over the policy module's
full parameter list — the online network's and the target network's
parameters, the flatten extractor contributing none — and its initial
learning rate is `lr_schedule 1`. -/
theorem C2_optimizer_over_all_policy_parameters (os as : GymSpace)
    (lr : ℚ → ℚ) (na : Option (List Nat)) (af : ℚ → ℚ) (ls eps : ℚ)
    (ni : Bool) (i1 i2 : MLP) (s : DQNPolicy)
    (h : DQNPolicy.init os as lr na af ls eps ni i1 i2 = Except.ok s) :
    s.optimizer.params = policyParameters s.q_net s.q_net_target
    ∧ s.optimizer.lr = lr 1 := by
  have hf := DQNPolicy.init_ok_fields os as lr na af ls eps ni i1 i2 s h
  exact ⟨hf.2.1, hf.2.2.1⟩

/-- Witness for the amended C2 at a concrete construction. -/
theorem C2_optimizer_witness :
    exPolicy.optimizer.params
        = policyParameters exPolicy.q_net exPolicy.q_net_target
    ∧ exPolicy.optimizer.lr = exLr 1 :=
  C2_optimizer_over_all_policy_parameters (GymSpace.box 1)
    (GymSpace.discrete 4) exLr (some [1]) reluQ 0 (1/20) true exMLP1 exMLP2
    exPolicy rfl

/-- Claim C3, code-bug evaluation: on a batched observation with two rows,
with `deterministic = false`, epsilon 1 and draw 0 < 1, the exploration
branch builds one sampled action per row and then calls `.reshape(1)` on the
two-element tensor (src line 75), which fails instead of returning one action
per batch element. -/
theorem C3_batched_exploration_reshape_error :
    Q_Net.predict exNet (ObsTensor.batched [[1], [0]]) false 0
      (fun i => if i = 0 then 3 else 0) = Except.error RTError.reshapeError := by
  rfl

/-- Unfolding equation of `argmaxIdx` on a two-or-more element list. -/
theorem argmaxIdx_cons2 (x y : ℚ) (xs : List ℚ) :
    argmaxIdx (x :: y :: xs)
      = if x < listMax (y :: xs) then argmaxIdx (y :: xs) + 1 else 0 := rfl

/-- Evaluation of the spec's concrete tie scenario: on the Q-value row
[0.1, 0.9, 0.9, 0.2] the argmax is the lowest maximal index, 1. -/
theorem argmaxIdx_scenario : argmaxIdx [1/10, 9/10, 9/10, 1/5] = 1 := by
  have hm2 : listMax [(9:ℚ)/10, 1/5] = 9/10 := by
    simp only [listMax, List.foldl]
    exact max_eq_left (by norm_num)
  have hm1 : listMax [(9:ℚ)/10, 9/10, 1/5] = 9/10 := by
    simp only [listMax, List.foldl, max_self]
    exact max_eq_left (by norm_num)
  rw [argmaxIdx_cons2, hm1, if_pos (by norm_num : (1:ℚ)/10 < 9/10),
      argmaxIdx_cons2, hm2, if_neg (lt_irrefl ((9:ℚ)/10))]

/-- Claim C4: whenever `forward` yields Q-value rows for an observation,
`predict` with `deterministic = true` returns per batch row the `argmax` of
that row; `argmaxIdx` is in range, attains the maximum, and every earlier
index is strictly smaller, so ties go to the lowest action index; on Q-values
[0.1, 0.9, 0.9, 0.2] the selected action is 1. -/
theorem C4_deterministic_predict_argmax (net : Q_Net) (obs : ObsTensor)
    (rand : ℚ) (samples : Nat → Nat) (qrows : List (List ℚ))
    (hf : Q_Net.forward net obs = Except.ok qrows) :
    Q_Net.predict net obs true rand samples = Except.ok (qrows.map argmaxIdx)
    ∧ (∀ l : List ℚ, l ≠ [] →
        argmaxIdx l < l.length ∧ l.getD (argmaxIdx l) 0 = listMax l
          ∧ ∀ i, i < argmaxIdx l → l.getD i 0 < listMax l)
    ∧ argmaxIdx [1/10, 9/10, 9/10, 1/5] = 1 := by
  refine ⟨?_, fun l hl => argmaxIdx_spec l hl, argmaxIdx_scenario⟩
  unfold Q_Net.predict
  rw [if_neg (fun hc => Bool.noConfusion hc.1)]
  unfold Q_Net.forward at hf
  cases hex : extract_features obs with
  | error e =>
      rw [hex] at hf
      exact Except.noConfusion hf
  | ok feats =>
      rw [hex] at hf
      injection hf with hf2
      rw [← hf2, List.map_map]
      rfl

/-- Witness for C4: the concrete scenario where the forward pass yields
Q-values [0.1, 0.9, 0.9, 0.2] returns action index 1. -/
theorem C4_deterministic_predict_witness :
    Q_Net.predict exNet (ObsTensor.batched [[1]]) true 0 (fun _ => 0)
      = Except.ok [1] := by
  have hfwd : Q_Net.forward exNet (ObsTensor.batched [[1]])
      = Except.ok [[1/10, 9/10, 9/10, 1/5]] := by
    simp only [Q_Net.forward, extract_features, exNet, exMLP1, mlpForward,
               affineApply, dotQ, reluQ, List.zipWith, List.foldl, List.map]
    norm_num [max_def]
  have t := C4_deterministic_predict_argmax exNet (ObsTensor.batched [[1]]) 0
    (fun _ => 0) [[1/10, 9/10, 9/10, 1/5]] hfwd
  rw [t.1]
  simp only [List.map_cons, List.map_nil]
  rw [t.2.2]

/-- Claim C5: `update_epsilon x` makes the online net's, the target net's and
the policy's epsilon all equal to x in one state step (no partial fan-out is
observable), the three-way agreement holds after the update, it is preserved
by `synchronize_target`, and it is established by every completed
construction. The prediction operations do not modify policy state in this
embedding, so they preserve it trivially. -/
theorem C5_epsilon_three_way_fanout (s : DQNPolicy) (x : ℚ)
    (hs : epsInvariant s) :
    ((s.update_epsilon x).q_net.epsilon = x
      ∧ (s.update_epsilon x).q_net_target.epsilon = x
      ∧ (s.update_epsilon x).epsilon = x)
    ∧ epsInvariant (s.update_epsilon x)
    ∧ epsInvariant s.synchronize_target
    ∧ ∀ (os as : GymSpace) (lr : ℚ → ℚ) (na : Option (List Nat)) (af : ℚ → ℚ)
        (ls eps : ℚ) (ni : Bool) (i1 i2 : MLP) (s0 : DQNPolicy),
        DQNPolicy.init os as lr na af ls eps ni i1 i2 = Except.ok s0 →
          epsInvariant s0 := by
  refine ⟨⟨rfl, rfl, rfl⟩, ⟨rfl, rfl⟩, ⟨hs.1, hs.2⟩, ?_⟩
  intro os as lr na af ls eps ni i1 i2 s0 h0
  have hf := DQNPolicy.init_ok_fields os as lr na af ls eps ni i1 i2 s0 h0
  exact ⟨hf.2.2.2.2.2.1.trans hf.2.2.2.2.1.symm,
         hf.2.2.2.2.2.2.trans hf.2.2.2.2.1.symm⟩

/-- Witness for C5 at a concrete policy and epsilon 1/4. -/
theorem C5_epsilon_fanout_witness :
    ((exPolicy.update_epsilon (1/4)).q_net.epsilon = 1/4
      ∧ (exPolicy.update_epsilon (1/4)).q_net_target.epsilon = 1/4
      ∧ (exPolicy.update_epsilon (1/4)).epsilon = 1/4)
    ∧ epsInvariant (exPolicy.update_epsilon (1/4))
    ∧ epsInvariant exPolicy.synchronize_target :=
  have t := C5_epsilon_three_way_fanout exPolicy (1/4) ⟨rfl, rfl⟩
  ⟨t.1, t.2.1, t.2.2.1⟩

/-- Claim C6: `synchronize_target` overwrites all of the target network's
parameters with the online network's current values, and running it twice
with no intervening online update equals running it once (idempotence). -/
theorem C6_synchronize_target_idempotent (s : DQNPolicy) :
    s.synchronize_target.q_net_target.q_net = s.q_net.q_net
    ∧ s.synchronize_target.synchronize_target = s.synchronize_target :=
  ⟨rfl, rfl⟩

/-- Claim C7: construction fails with the unsupported-space error exactly on
the non-discrete action spaces (the `.n` attribute access on a Box fails at
construction time), and with a discrete action space construction never
raises that error — it either completes or fails with a configuration
error. -/
theorem C7_unsupported_space_iff_non_discrete (os : GymSpace) (lr : ℚ → ℚ)
    (na : Option (List Nat)) (af : ℚ → ℚ) (ls eps : ℚ) (ni : Bool)
    (i1 i2 : MLP) :
    (∀ d, DQNPolicy.init os (GymSpace.box d) lr na af ls eps ni i1 i2
        = Except.error SBError.unsupportedSpace)
    ∧ ∀ n, DQNPolicy.init os (GymSpace.discrete n) lr na af ls eps ni i1 i2
        ≠ Except.error SBError.unsupportedSpace := by
  constructor
  · intro d
    rfl
  · intro n h
    simp only [DQNPolicy.init, spaceN] at h
    split at h
    · rename_i e heq
      injection h with h2
      subst h2
      exact SBError.noConfusion (make_q_net_error _ _ _ heq)
    · rename_i online hon
      split at h
      · rename_i e heq
        injection h with h2
        subst h2
        exact SBError.noConfusion (make_q_net_error _ _ _ heq)
      · exact Except.noConfusion h

/-- Witness for C7: a Box action space fails with the unsupported-space error
at construction. -/
theorem C7_unsupported_space_witness :
    DQNPolicy.init (GymSpace.box 1) (GymSpace.box 2) exLr (some [1]) reluQ 0
      (1/20) true exMLP1 exMLP2 = Except.error SBError.unsupportedSpace :=
  (C7_unsupported_space_iff_non_discrete (GymSpace.box 1) exLr (some [1])
    reluQ 0 (1/20) true exMLP1 exMLP2).1 2

/-- Claim C8: Q-network construction fails with the configuration error
whenever `net_arch` is the empty list (not replaced by a default), and
whenever `action_dim ≤ 0`; the failure happens at network construction
time. -/
theorem C8_configuration_error_conditions (os as : GymSpace) (fd ad : Int)
    (af : ℚ → ℚ) (eps : ℚ) (ni : Bool) (iW : MLP) (na : Option (List Nat)) :
    Q_Net.init os as fd ad (some []) af eps ni iW
        = Except.error SBError.configuration
    ∧ (ad ≤ 0 → Q_Net.init os as fd ad na af eps ni iW
        = Except.error SBError.configuration) := by
  constructor
  · rfl
  · intro had
    by_cases hna : na.getD [64, 64] = []
    · simp [Q_Net.init, create_mlp, hna]
    · simp [Q_Net.init, create_mlp, hna, had]

/-- Witness for C8: empty `net_arch` and `action_dim = 0` both fail with the
configuration error. -/
theorem C8_configuration_error_witness :
    Q_Net.init (GymSpace.box 1) (GymSpace.discrete 4) 1 0 (some []) reluQ
        (1/20) true exMLP1 = Except.error SBError.configuration
    ∧ Q_Net.init (GymSpace.box 1) (GymSpace.discrete 4) 1 0 (some [1]) reluQ
        (1/20) true exMLP1 = Except.error SBError.configuration :=
  have t := C8_configuration_error_conditions (GymSpace.box 1)
    (GymSpace.discrete 4) 1 0 reluQ (1/20) true exMLP1 (some [1])
  ⟨t.1, t.2 (by decide)⟩

/-- Claim C9: with epsilon 0 and the uniform draw in [0,1) (hence never below
0), `predict` with `deterministic = false` returns exactly what
`deterministic = true` returns, for every observation and on every call. -/
theorem C9_zero_epsilon_deterministic_agreement (net : Q_Net)
    (obs : ObsTensor) (rand : ℚ) (samples : Nat → Nat)
    (he : net.epsilon = 0) (hr : 0 ≤ rand) :
    Q_Net.predict net obs false rand samples
      = Q_Net.predict net obs true rand samples := by
  unfold Q_Net.predict
  rw [if_neg (fun hc => absurd (he ▸ hc.2) (not_lt.mpr hr)),
      if_neg (fun hc => Bool.noConfusion hc.1)]

/-- Witness for C9 at a concrete net with epsilon 0 and draw 1/2. -/
theorem C9_zero_epsilon_witness :
    Q_Net.predict exNet0 (ObsTensor.batched [[1]]) false (1/2) (fun _ => 0)
      = Q_Net.predict exNet0 (ObsTensor.batched [[1]]) true (1/2)
          (fun _ => 0) :=
  C9_zero_epsilon_deterministic_agreement exNet0 (ObsTensor.batched [[1]])
    (1/2) (fun _ => 0) rfl (by norm_num)

/-- Claim C10: `update_epsilon x` leaves the frozen `net_args` record
untouched, so a network made afterwards via `make_q_net` carries the
construction-time epsilon, which differs from the policy's updated epsilon
whenever x does. -/
theorem C10_update_epsilon_preserves_net_args (os as : GymSpace)
    (lr : ℚ → ℚ) (na : Option (List Nat)) (af : ℚ → ℚ) (ls eps : ℚ)
    (ni : Bool) (i1 i2 iW : MLP) (s : DQNPolicy) (x : ℚ) (q : Q_Net)
    (h : DQNPolicy.init os as lr na af ls eps ni i1 i2 = Except.ok s)
    (hx : x ≠ eps)
    (hq : make_q_net ((s.update_epsilon x).net_args) iW = Except.ok q) :
    (s.update_epsilon x).net_args = s.net_args
    ∧ q.epsilon = eps
    ∧ q.epsilon ≠ (s.update_epsilon x).epsilon := by
  have hf := DQNPolicy.init_ok_fields os as lr na af ls eps ni i1 i2 s h
  have hqe := make_q_net_ok_epsilon _ _ _ hq
  have h1 : (s.update_epsilon x).net_args = s.net_args := rfl
  have h2 : q.epsilon = eps := by
    rw [hqe, h1]
    exact hf.2.2.2.1
  refine ⟨h1, h2, ?_⟩
  rw [h2]
  intro hcon
  exact hx hcon.symm

/-- Witness for C10: after updating epsilon to 1/4, a freshly made network
still carries the construction epsilon 1/20. -/
theorem C10_update_epsilon_witness :
    (exPolicy.update_epsilon (1/4)).net_args = exPolicy.net_args
    ∧ exChild.epsilon = 1/20 :=
  have t := C10_update_epsilon_preserves_net_args (GymSpace.box 1)
    (GymSpace.discrete 4) exLr (some [1]) reluQ 0 (1/20) true exMLP1 exMLP2
    exMLP1 exPolicy (1/4) exChild rfl (by norm_num) rfl
  ⟨t.1, t.2.1⟩
